import Mathlib

/-!
Verification development for the Binary Ninja MCP bridge (TypeScript).

The bridge (src/bridge/src/index.ts, src/bridge/src/client.ts) translates
tool invocations into HTTP requests against a remote Binary Ninja service
and reshapes the responses into text payloads.  Below, the pure decision
logic of the bridge is embedded shallowly: the HTTP layer is modelled by an
oracle value describing the outcome of the underlying axios call, JSON
bodies are modelled by an inductive `JVal`, and each handler's
parameter-building and response-rendering code is translated function by
function from the TypeScript source.  JavaScript string primitives
(`trim`, `toLowerCase`, `startsWith`, `split`, the `/^\d+$/` test) are
modelled over the character list of a string.
-/

namespace BinjaMcp

/-! ## JavaScript string primitives -/

/-- Characters stripped by JavaScript `String.prototype.trim` (ASCII
whitespace and line terminators, plus NBSP and the BOM). -/
def jsWhitespace (c : Char) : Bool :=
  c = ' ' || c = '\t' || c = '\n' || c = '\r' ||
  c = '\x0b' || c = '\x0c' || c = ' ' || c = '﻿'

/-- JavaScript `s.trim()`. -/
def jsTrim (s : String) : String :=
  ⟨((s.data.dropWhile jsWhitespace).reverse.dropWhile jsWhitespace).reverse⟩

/-- ASCII lower-casing of one character, as `String.prototype.toLowerCase`
acts on ASCII letters. -/
def jsLowerChar (c : Char) : Char :=
  if 65 ≤ c.toNat && c.toNat ≤ 90 then Char.ofNat (c.toNat + 32) else c

/-- JavaScript `s.toLowerCase()` (ASCII fragment). -/
def jsToLowerCase (s : String) : String :=
  ⟨s.data.map jsLowerChar⟩

/-- JavaScript `s.startsWith(t)`. -/
def jsStartsWith (s t : String) : Bool :=
  t.data.isPrefixOf s.data

/-- One character of the regex class `\d`. -/
def jsIsDigit (c : Char) : Bool :=
  48 ≤ c.toNat && c.toNat ≤ 57

/-- The regex test `/^\d+$/.test(s)`: one or more decimal digits and
nothing else. -/
def jsAllDigits (s : String) : Bool :=
  !s.data.isEmpty && s.data.all jsIsDigit

/-- Split a character list at every occurrence of `sep`; total and never
empty, mirroring JavaScript `split` with a one-character separator. -/
def splitCharAux (sep : Char) : List Char → List (List Char)
  | [] => [[]]
  | c :: cs =>
    if c = sep then [] :: splitCharAux sep cs
    else
      match splitCharAux sep cs with
      | t :: ts => (c :: t) :: ts
      | [] => [[c]]

/-- JavaScript `text.split("\n")` (the only separator the bridge uses). -/
def jsSplitNewline (s : String) : List String :=
  (splitCharAux '\n' s.data).map (fun cs => ⟨cs⟩)

/-- The JavaScript `x || d` default on an already-extracted string. -/
def jsStrOrS (v : Option String) (d : String) : String :=
  match v with
  | some s => if s != "" then s else d
  | none => d

/-! ## JSON values -/

/-- JSON values, as delivered by the remote service (numbers restricted to
integers, which is all the bridge's handlers consume). -/
inductive JVal where
  | jnull : JVal
  | jbool : Bool → JVal
  | jnum : Int → JVal
  | jstr : String → JVal
  | jarr : List JVal → JVal
  | jobj : List (String × JVal) → JVal

/-- JavaScript truthiness of a JSON value (`if (x)`): `null`, `false`, `0`
and `""` are falsy; arrays and objects are always truthy. -/
def jsTruthy : JVal → Bool
  | .jnull => false
  | .jbool b => b
  | .jnum n => n != 0
  | .jstr s => s != ""
  | .jarr _ => true
  | .jobj _ => true

/-- Field access `o[k]` on a JSON value: `none` models `undefined`. -/
def JVal.getField : JVal → String → Option JVal
  | .jobj fs, k => fs.lookup k
  | _, _ => none

/-- The JavaScript `"k" in o` test, for object values (the handlers only
apply it to objects). -/
def JVal.hasField (v : JVal) (k : String) : Bool :=
  (v.getField k).isSome

/-- String conversion as performed by a template literal `${x}`. -/
def jsToString : JVal → String
  | .jnull => "null"
  | .jbool true => "true"
  | .jbool false => "false"
  | .jnum n => toString n
  | .jstr s => s
  | .jarr xs => String.intercalate "," (xs.map fun x =>
      match x with
      | .jstr s => s
      | .jnum n => toString n
      | .jbool true => "true"
      | .jbool false => "false"
      | _ => "")
  | .jobj _ => "[object Object]"

/-- Template interpolation of a possibly-absent field: JavaScript prints
`undefined` for a missing value. -/
def jsToStringOpt : Option JVal → String
  | none => "undefined"
  | some v => jsToString v

/-- The JavaScript `x || d` default for a possibly-absent field rendered as
a string (used for fields typed `string` in the source). -/
def jsStrOr (v : Option JVal) (d : String) : String :=
  match v with
  | some x => if jsTruthy x then jsToString x else d
  | none => d

/-- The JavaScript `x || d` default for a field typed `number`. -/
def jsNumOr (v : Option JVal) (d : Int) : Int :=
  match v with
  | some (.jnum n) => if n != 0 then n else d
  | _ => d

/-- The JavaScript `x || d` default for a field typed `boolean`. -/
def jsBoolOr (v : Option JVal) (d : Bool) : Bool :=
  match v with
  | some x => if jsTruthy x then true else d
  | none => d

/-- `Array.isArray(x) ? x : []`. -/
def jsAsArray : Option JVal → List JVal
  | some (.jarr xs) => xs
  | _ => []

/-- A list of strings read from a field typed `string[]` in the source. -/
def jsStrList : Option JVal → List String
  | some (.jarr xs) => xs.map jsToString
  | _ => []

/-! ## Identifier classification

Several handlers accept a single string that may be either a symbolic name
or a numeric address and choose the query-parameter key accordingly.  Each
call site in index.ts re-derives the test; the definitions below transcribe
each site separately. -/

/-- Which query-parameter key an identifier is sent under. -/
inductive ParamKind where
  | address : ParamKind
  | name : ParamKind
deriving DecidableEq

/-- Classification in the `get_il` handler (index.ts:210-215):
`ident.toLowerCase().startsWith("0x") || /^\d+$/.test(ident)` after
`name_or_address.trim()`. -/
def getIlClassify (name_or_address : String) : ParamKind :=
  let ident := jsTrim name_or_address
  if jsStartsWith (jsToLowerCase ident) "0x" || jsAllDigits ident then .address else .name

/-- Classification in the `rename_multi_variables` handler
(index.ts:301-307). -/
def renameMultiClassify (function_identifier : String) : ParamKind :=
  let ident := jsTrim function_identifier
  if jsStartsWith (jsToLowerCase ident) "0x" || jsAllDigits ident then .address else .name

/-- Classification in the `get_stack_frame_vars` handler
(index.ts:792-795). -/
def getStackFrameVarsClassify (function_identifier : String) : ParamKind :=
  let ident := jsTrim function_identifier
  if jsStartsWith (jsToLowerCase ident) "0x" || jsAllDigits ident then .address else .name

/-- Classification in the `set_function_prototype` handler
(index.ts:1045-1051). -/
def setFunctionPrototypeClassify (name_or_address : String) : ParamKind :=
  let ident := jsTrim name_or_address
  if jsStartsWith (jsToLowerCase ident) "0x" || jsAllDigits ident then .address else .name

/-- Classification in the `hexdump_data` handler (index.ts:640-641): only a
case-sensitive `ident.startsWith("0x")` test, with no decimal-digits
branch. -/
def hexdumpDataClassify (name_or_address : String) : ParamKind :=
  let ident := jsTrim name_or_address
  if jsStartsWith ident "0x" then .address else .name

/-- Classification in the `get_data_decl` handler (index.ts:666-669): same
case-sensitive `ident.startsWith("0x")` test as `hexdump_data`. -/
def getDataDeclClassify (name_or_address : String) : ParamKind :=
  let ident := jsTrim name_or_address
  if jsStartsWith ident "0x" then .address else .name

/-! ## Transport client (client.ts)

The axios call inside each method is modelled by an oracle value: either a
response (status, statusText, body) was produced, or an error was thrown.
`AxiosErr` distinguishes the cases `getErrorMessage` inspects. -/

/-- The error thrown by the underlying transport, as inspected by
`getErrorMessage` (client.ts:105-116). -/
inductive AxiosErr where
  | withResponse (status : Nat) (statusText : String) : AxiosErr
  | withRequest : AxiosErr
  | otherAxios (message : String) : AxiosErr
  | nonAxios (value : String) : AxiosErr

/-- `BinjaHttpClient.getErrorMessage` (client.ts:105-116). -/
def getErrorMessage : AxiosErr → String
  | .withResponse status statusText =>
      "Server returned " ++ toString status ++ ": " ++ statusText
  | .withRequest =>
      "No response from server - is Binary Ninja running with the MCP plugin?"
  | .otherAxios message => message
  | .nonAxios value => value

/-- Outcome of one underlying `this.client.get(...)` call. -/
inductive AxiosOutcome (α : Type) where
  | response (status : Nat) (statusText : String) (data : α) : AxiosOutcome α
  | thrown (err : AxiosErr) : AxiosOutcome α

/-- `BinjaHttpClient.handleError` (client.ts:100-103). -/
def handleError (err : AxiosErr) (method endpoint : String) : String :=
  "Error: " ++ method ++ " " ++ endpoint ++ " failed: " ++ getErrorMessage err

/-- `BinjaHttpClient.getText` (client.ts:27-41), as a function of the
outcome of its single GET. -/
def getText (endpoint : String) (o : AxiosOutcome String) : String :=
  match o with
  | .response status _statusText data =>
      if 200 ≤ status && status < 300 then data
      else "Error " ++ toString status ++ ": " ++ data
  | .thrown err => handleError err "GET" endpoint

/-- `typeof x === "object"` on a JSON value (`null` included). -/
def jsTypeofObject : JVal → Bool
  | .jnull => true
  | .jarr _ => true
  | .jobj _ => true
  | _ => false

/-- `BinjaHttpClient.getJson` (client.ts:46-65), as a function of the
outcome of its single GET. -/
def getJson (o : AxiosOutcome JVal) : JVal :=
  match o with
  | .response status statusText data =>
      if 200 ≤ status && status < 300 then data
      else if jsTruthy data && jsTypeofObject data && data.hasField "error" then data
      else .jobj [("error", .jstr ("Error " ++ toString status ++ ": " ++ statusText))]
  | .thrown err =>
      .jobj [("error", .jstr ("Request failed: " ++ getErrorMessage err))]

/-- `BinjaHttpClient.getLines` (client.ts:70-73): `getText` then
`text.split("\n")`. -/
def getLines (endpoint : String) (o : AxiosOutcome String) : List String :=
  jsSplitNewline (getText endpoint o)

/-! ## Handlers (index.ts) -/

/-- JavaScript truthiness of an optional-string argument. -/
def jsTruthyS : Option String → Bool
  | some s => s != ""
  | none => false

/-- Truthiness of a possibly-absent JSON field. -/
def jsTruthyOpt : Option JVal → Bool
  | some x => jsTruthy x
  | none => false

/-- The strict comparison `x === "lit"` of a possibly-absent field against
a string literal. -/
def jsEqStr : Option JVal → String → Bool
  | some (.jstr s), t => s == t
  | _, _ => false

/-- Query parameters sent by the `fetch_disassembly` handler
(index.ts:235-237): the identifier is always forwarded under the `name`
key, with no address classification. -/
def fetchDisassemblyParams (name : String) : List (String × String) :=
  [("name", name)]

/-- Rendering of the `fetch_disassembly` handler (index.ts:237-246). -/
def fetchDisassemblyRender (filename : String) (data : JVal) : String :=
  if !jsTruthy data then "File: " ++ filename ++ "\n\nError: no response"
  else if data.hasField "error" then
    "File: " ++ filename ++ "\n\nError: " ++ jsToStringOpt (data.getField "error")
  else "File: " ++ filename ++ "\n\n" ++ jsStrOr (data.getField "assembly") ""

/-- Result of the argument-processing phase of `rename_multi_variables`:
either a locally produced error payload (no network call is made), or the
query parameters of the one forwarded request. -/
inductive RenameMultiOutcome where
  | localError (text : String) : RenameMultiOutcome
  | forward (params : List (String × String)) : RenameMultiOutcome
deriving DecidableEq

/-- Argument processing of the `rename_multi_variables` handler
(index.ts:300-327).  `jsonValid` abstracts the success of `JSON.parse` on
a candidate string. -/
def renameMultiDecision (jsonValid : String → Bool) (function_identifier : String)
    (mapping_json pairs renames_json : Option String) : RenameMultiOutcome :=
  let ident := jsTrim function_identifier
  let base : List (String × String) :=
    if jsStartsWith (jsToLowerCase ident) "0x" || jsAllDigits ident then
      [("address", ident)]
    else [("functionName", ident)]
  if jsTruthyS renames_json then
    if jsonValid (renames_json.getD "") then
      .forward (base ++ [("renames", renames_json.getD "")])
    else .localError "Error: renames_json is not valid JSON"
  else if jsTruthyS mapping_json then
    if jsonValid (mapping_json.getD "") then
      .forward (base ++ [("mapping", mapping_json.getD "")])
    else .localError "Error: mapping_json is not valid JSON"
  else if jsTruthyS pairs then .forward (base ++ [("pairs", pairs.getD "")])
  else .localError "Error: provide mapping_json, renames_json, or pairs"

/-- Rendering of the `rename_multi_variables` handler once the remote
response arrived (index.ts:329-339). -/
def renameMultiRender (data : JVal) : String :=
  if !jsTruthy data then "Error: no response"
  else if data.hasField "error" then
    "Error: " ++ jsToStringOpt (data.getField "error")
  else
    "Batch rename: " ++ jsToStringOpt (data.getField "renamed") ++ "/" ++
      jsToStringOpt (data.getField "total") ++ " applied"

/-- Rendering of the `get_comment` handler (index.ts:376-379):
`lines[0] ?? ""`. -/
def getCommentRender (text : String) : String :=
  (jsSplitNewline text).headD ""

/-- Rendering of the `get_function_comment` handler (index.ts:413-416):
`lines[0] || ""`. -/
def getFunctionCommentRender (text : String) : String :=
  jsStrOrS (jsSplitNewline text).head? ""

/-- Rendering of the `get_stack_frame_vars` handler (index.ts:796-805):
both the missing-response case and the error case produce an empty text
payload. -/
def getStackFrameVarsRender (data : JVal) : String :=
  if !jsTruthy data then ""
  else if data.hasField "error" then ""
  else String.intercalate "\n" (jsStrList (data.getField "stack_frame_vars"))

/-- One line of the `list_binaries` listing (index.ts:986-998). -/
def listBinariesLine (it : JVal) : String :=
  let vid := it.getField "id"
  let view_id := it.getField "view_id"
  let fn := it.getField "filename"
  let basename := jsStrOr (it.getField "basename") ""
  let selectors := jsAsArray (it.getField "selectors")
  let active := jsTruthyOpt (it.getField "active")
  let label := if basename != "" then basename else jsStrOr fn "(unknown)"
  let full := jsStrOr fn "(no filename)"
  let selectorText := String.intercalate ", " (selectors.map jsToString)
  let mark := if active then " *active*" else ""
  let viewPart := if jsTruthyOpt view_id then " view=" ++ jsToStringOpt view_id else ""
  jsToStringOpt vid ++ ". " ++ label ++ viewPart ++ mark ++
    "\n    path: " ++ full ++ "\n    selectors: " ++ selectorText

/-- Rendering of the `list_binaries` handler (index.ts:977-1001): the
error branch returns the bare `error` field, with no `Error: ` prefix. -/
def listBinariesRender (data : JVal) : String :=
  if !jsTruthy data then "Error: no response"
  else if data.hasField "error" then jsToStringOpt (data.getField "error")
  else
    String.intercalate "\n" ((jsAsArray (data.getField "binaries")).map listBinariesLine)

mutual

/-- Compact `JSON.stringify` (escaping inside string literals is not
modelled; no claim evaluates it on strings needing escapes). -/
def jsonStringify : JVal → String
  | .jnull => "null"
  | .jbool true => "true"
  | .jbool false => "false"
  | .jnum n => toString n
  | .jstr s => "\"" ++ s ++ "\""
  | .jarr xs => "[" ++ String.intercalate "," (jsonStringifyList xs) ++ "]"
  | .jobj fs => "\x7b" ++ String.intercalate "," (jsonStringifyFields fs) ++ "\x7d"

/-- `jsonStringify` over the elements of an array. -/
def jsonStringifyList : List JVal → List String
  | [] => []
  | x :: xs => jsonStringify x :: jsonStringifyList xs

/-- `jsonStringify` over the fields of an object. -/
def jsonStringifyFields : List (String × JVal) → List String
  | [] => []
  | (k, v) :: fs => ("\"" ++ k ++ "\":" ++ jsonStringify v) :: jsonStringifyFields fs

end

/-- Rendering of the `patch_bytes` handler (index.ts:1135-1170), as a
function of the requested address and the `getJson` result. -/
def patchBytesRender (address : String) (result : JVal) : String :=
  if !jsTruthy result then "Error: no response"
  else if result.hasField "error" then
    "Error: " ++ jsToStringOpt (result.getField "error")
  else
    let statusF := result.getField "status"
    if jsEqStr statusF "ok" || jsEqStr statusF "partial" then
      let orig := jsStrOr (result.getField "original_bytes") ""
      let patched := jsStrOr (result.getField "patched_bytes") ""
      let written := jsNumOr (result.getField "bytes_written") 0
      let requested := jsNumOr (result.getField "bytes_requested") 0
      let saved := jsBoolOr (result.getField "saved_to_file") false
      let savedPath := jsStrOr (result.getField "saved_path") ""
      let warning := jsStrOr (result.getField "warning") ""
      let msg := "Patched " ++ toString written ++ "/" ++ toString requested ++
        " bytes at " ++ address
      let msg := if jsEqStr statusF "partial" then msg ++ " (PARTIAL WRITE)" else msg
      let msg := if warning != "" then msg ++ "\nWarning: " ++ warning else msg
      let msg := if orig != "" then msg ++ "\nOriginal: " ++ orig else msg
      let msg := if patched != "" then msg ++ "\nPatched:  " ++ patched else msg
      let msg := if saved then msg ++ "\nSaved to file: " ++ savedPath else msg
      msg
    else jsonStringify result

/-- Formatting of one string record in `list_all_strings`
(index.ts:947-952). -/
def formatStringItem (s : JVal) : String :=
  let addr := jsStrOr (s.getField "address") ""
  let length := s.getField "length"
  let stype := jsStrOr (s.getField "type") ""
  let value := jsStrOr (s.getField "value") ""
  addr ++ "\t" ++ jsToStringOpt length ++ "\t" ++ stype ++ "\t" ++ value

/-- The aggregation loop of `list_all_strings` (index.ts:934-958).
`server` gives the `getJson` result for each requested offset; `fuel`
bounds the number of iterations (the theorems below apply it with enough
fuel for the loop to reach its own termination condition).  Returns the
accumulated records together with the number of fetches performed. -/
def listAllStringsGo (batch_size : Nat) (server : Nat → JVal) :
    Nat → Nat → List String × Nat
  | _offset, 0 => ([], 0)
  | offset, fuel + 1 =>
    let data := server offset
    if !jsTruthy data || !data.hasField "strings" then ([], 1)
    else
      let items := jsAsArray (data.getField "strings")
      if items.isEmpty then ([], 1)
      else
        let formatted := items.map formatStringItem
        if items.length < batch_size then (formatted, 1)
        else
          let rest := listAllStringsGo batch_size server (offset + batch_size) fuel
          (formatted ++ rest.1, rest.2 + 1)

/-! ## Startup configuration (index.ts:28-75) -/

/-- Digit-prefix accumulation for `parseInt(s, 10)`. -/
def jsParseIntAux : List Char → Nat → Nat
  | [], acc => acc
  | c :: cs, acc => if jsIsDigit c then jsParseIntAux cs (acc * 10 + (c.toNat - 48)) else acc

/-- JavaScript `parseInt(s, 10)`: trim, optional sign, longest decimal
digit prefix; `none` models `NaN`. -/
def jsParseInt (s : String) : Option Int :=
  match (jsTrim s).data with
  | '-' :: cs =>
      if (cs.head?.map jsIsDigit).getD false then some (-(jsParseIntAux cs 0 : Int)) else none
  | '+' :: cs =>
      if (cs.head?.map jsIsDigit).getD false then some ((jsParseIntAux cs 0 : Nat) : Int) else none
  | cs =>
      if (cs.head?.map jsIsDigit).getD false then some ((jsParseIntAux cs 0 : Nat) : Int) else none

/-- The argument loop of `parseArgs` (index.ts:33-64).  `none` models the
`process.exit(0)` taken on `--help`/`-h`; the port is `Option Int` because
`parseInt` may produce `NaN`. -/
def argsLoop : List String → String → Option Int → Option (String × Option Int)
  | [], host, port => some (host, port)
  | arg :: rest, host, port =>
    if arg = "--host" then
      match rest with
      | v :: rest2 => argsLoop rest2 v port
      | [] => argsLoop [] host port
    else if arg = "--port" then
      match rest with
      | v :: rest2 => argsLoop rest2 host (jsParseInt v)
      | [] => argsLoop [] host port
    else if arg = "--help" || arg = "-h" then none
    else argsLoop rest host port

/-- `parseArgs` (index.ts:28-75): command-line arguments are read first,
then the environment variables are applied on top of whatever the loop
produced (index.ts:66-72). -/
def parseArgs (argv : List String) (envHost envPort : Option String) :
    Option (String × Option Int) :=
  match argsLoop argv "localhost" (some 9009) with
  | none => none
  | some (host, port) =>
    let host := match envHost with
      | some eh => if eh != "" then eh else host
      | none => host
    let port := match envPort with
      | some ep =>
          if ep != "" then
            match jsParseInt ep with
            | some n => if n != 0 then some n else port
            | none => port
          else port
      | none => port
    some (host, port)

/-! ## Helper lemmas -/

theorem splitCharAux_no_sep (sep : Char) (l : List Char) (h : ∀ c ∈ l, c ≠ sep) :
    splitCharAux sep l = [l] := by
  induction l with
  | nil => rfl
  | cons c cs ih =>
    have hc : c ≠ sep := h c (List.mem_cons_self c cs)
    have hcs := ih (fun d hd => h d (List.mem_cons_of_mem c hd))
    simp [splitCharAux, hc, hcs]

theorem splitCharAux_append (sep : Char) (l1 rest : List Char) (h : ∀ c ∈ l1, c ≠ sep) :
    splitCharAux sep (l1 ++ sep :: rest) = l1 :: splitCharAux sep rest := by
  induction l1 with
  | nil => simp [splitCharAux]
  | cons c cs ih =>
    have hc : c ≠ sep := h c (List.mem_cons_self c cs)
    have hcs := ih (fun d hd => h d (List.mem_cons_of_mem c hd))
    simp [splitCharAux, hc, hcs]

theorem jsSplitNewline_no_newline (s : String) (h : '\n' ∉ s.data) :
    jsSplitNewline s = [s] := by
  unfold jsSplitNewline
  rw [splitCharAux_no_sep '\n' s.data (fun c hc heq => h (heq ▸ hc))]
  rfl

theorem jsSplitNewline_append (pre post : String) (h : '\n' ∉ pre.data) :
    jsSplitNewline (pre ++ "\n" ++ post) = pre :: jsSplitNewline post := by
  unfold jsSplitNewline
  have hd : (pre ++ "\n" ++ post).data = pre.data ++ '\n' :: post.data := by
    simp [String.data_append]
  rw [hd, splitCharAux_append '\n' pre.data post.data (fun c hc heq => h (heq ▸ hc))]
  rfl

/-! ## Claim C1 -/

/-- C1 counterexample: the claim that all six name-or-address call sites
classify identically fails at the all-digits identifier `"123"`, which
`get_il` sends as `address` but `hexdump_data` sends as `name`. -/
theorem c1_counterexample :
    getIlClassify "123" = ParamKind.address ∧
    hexdumpDataClassify "123" = ParamKind.name ∧
    getIlClassify "123" ≠ hexdumpDataClassify "123" := by
  decide

/-- C1 (amended): `get_il`, `rename_multi_variables`, `get_stack_frame_vars`
and `set_function_prototype` share one classification rule (trim; address
iff lower-cased `0x` start or all decimal digits), and `hexdump_data` and
`get_data_decl` share a second rule (trim; address iff case-sensitive
`0x` start, with no digits branch); the two groups are not identical. -/
theorem c1_classification_sites (s : String) :
    getIlClassify s = renameMultiClassify s ∧
    getIlClassify s = getStackFrameVarsClassify s ∧
    getIlClassify s = setFunctionPrototypeClassify s ∧
    hexdumpDataClassify s = getDataDeclClassify s ∧
    (getIlClassify s = ParamKind.address ↔
      (jsStartsWith (jsToLowerCase (jsTrim s)) "0x" = true ∨ jsAllDigits (jsTrim s) = true)) ∧
    (hexdumpDataClassify s = ParamKind.address ↔ jsStartsWith (jsTrim s) "0x" = true) := by
  refine ⟨rfl, rfl, rfl, rfl, ?_, ?_⟩
  · by_cases h1 : jsStartsWith (jsToLowerCase (jsTrim s)) "0x" = true
    · simp [getIlClassify, h1]
    · by_cases h2 : jsAllDigits (jsTrim s) = true
      · simp [getIlClassify, h1, h2]
      · simp [getIlClassify, h1, h2]
  · by_cases h1 : jsStartsWith (jsTrim s) "0x" = true
    · simp [hexdumpDataClassify, h1]
    · simp [hexdumpDataClassify, h1]

/-! ## Claim C3 -/

/-- C3 counterexample: `fetch_disassembly` called with `"0x401000"` does
not produce an `address` query parameter; the identifier is sent under
`name`. -/
theorem c3_counterexample :
    (fetchDisassemblyParams "0x401000").lookup "address" = none ∧
    (fetchDisassemblyParams "0x401000").lookup "name" = some "0x401000" := by
  decide

/-- C3 (amended): the `fetch_disassembly` handler performs no
classification at all — every identifier, `"0x401000"` and `"main"`
alike, is forwarded as the `name` query parameter, and no `address`
parameter is ever sent. -/
theorem c3_fetch_disassembly_name_param (name : String) :
    fetchDisassemblyParams name = [("name", name)] ∧
    (fetchDisassemblyParams name).lookup "address" = none ∧
    (fetchDisassemblyParams "main").lookup "name" = some "main" := by
  refine ⟨rfl, ?_, rfl⟩
  rfl

/-! ## Claim C2 -/

/-- C2 counterexample: with `--host clihost --port 1234` on the command
line and `BINJA_MCP_HOST=envhost`, `BINJA_MCP_PORT=5678` in the
environment, the environment values win, refuting the claim that the
command-line values are used. -/
theorem c2_counterexample :
    parseArgs ["--host", "clihost", "--port", "1234"] (some "envhost") (some "5678") =
      some ("envhost", some 5678) ∧
    parseArgs ["--host", "clihost", "--port", "1234"] (some "envhost") (some "5678") ≠
      some ("clihost", some 1234) := by
  decide

/-- C2 (amended): environment variables take precedence over both the
built-in defaults and the command-line values: a nonempty
`BINJA_MCP_HOST` always becomes the host, and a `BINJA_MCP_PORT` that
parses to a nonzero integer always becomes the port; the command-line
values are used only when the corresponding environment variable is
absent (or, for the port, fails to parse to a nonzero integer). -/
theorem c2_env_precedence :
    (∀ (argv : List String) (eh : String) (ep : Option String) (host : String) (port : Option Int),
      eh ≠ "" → parseArgs argv (some eh) ep = some (host, port) → host = eh) ∧
    (∀ (argv : List String) (envHost : Option String) (ep : String) (n : Int)
        (host : String) (port : Option Int),
      jsParseInt ep = some n → n ≠ 0 →
      parseArgs argv envHost (some ep) = some (host, port) → port = some n) ∧
    parseArgs [] none none = some ("localhost", some 9009) ∧
    parseArgs ["--host", "h1", "--port", "42"] none none = some ("h1", some 42) := by
  refine ⟨?_, ?_, by decide, by decide⟩
  · intro argv eh ep host port heh hp
    unfold parseArgs at hp
    cases hal : argsLoop argv "localhost" (some 9009) with
    | none => rw [hal] at hp; simp at hp
    | some pr =>
      obtain ⟨h0, p0⟩ := pr
      rw [hal] at hp
      have hbne : (eh != "") = true := by simpa [bne_iff_ne] using heh
      simp only [hbne, if_true] at hp
      simp only [Option.some.injEq, Prod.mk.injEq] at hp
      exact hp.1.symm
  · intro argv envHost ep n host port hparse hn hp
    have hep : ep ≠ "" := by
      intro hcontra
      rw [hcontra] at hparse
      rw [show jsParseInt "" = none from rfl] at hparse
      exact Option.noConfusion hparse
    unfold parseArgs at hp
    cases hal : argsLoop argv "localhost" (some 9009) with
    | none => rw [hal] at hp; simp at hp
    | some pr =>
      obtain ⟨h0, p0⟩ := pr
      rw [hal] at hp
      have hbne : (ep != "") = true := by simpa [bne_iff_ne] using hep
      have hnbne : (n != 0) = true := by simpa [bne_iff_ne] using hn
      simp only [hbne, if_true, hparse, hnbne] at hp
      simp only [Option.some.injEq, Prod.mk.injEq] at hp
      exact hp.2.symm

/-- C2 witness: the amended theorem applied at a concrete startup line. -/
theorem c2_env_precedence_witness :
    ("envhost" : String) ≠ "" ∧
    parseArgs ["--host", "clihost"] (some "envhost") none = some ("envhost", some 9009) ∧
    ("envhost" : String) = "envhost" :=
  ⟨by decide, by decide,
    c2_env_precedence.1 ["--host", "clihost"] "envhost" none "envhost" (some 9009)
      (by decide) (by decide)⟩

/-! ## Claim C4 -/

/-- C4: argument validation of `rename_multi_variables`.  With none of the
three alternatives supplied the handler answers with a local validation
error and forwards nothing; a supplied but syntactically invalid
`renames_json` (resp. `mapping_json`, when `renames_json` is absent) is
rejected locally naming that input; with exactly one valid alternative
the request is forwarded (identifier classified as in
`renameMultiClassify`) and the success payload reports the
`renamed`/`total` counts of the remote response. -/
theorem c4_rename_multi_validation :
    (∀ (jsonValid : String → Bool) (fid : String),
      renameMultiDecision jsonValid fid none none none =
        RenameMultiOutcome.localError "Error: provide mapping_json, renames_json, or pairs") ∧
    (∀ (jsonValid : String → Bool) (fid : String) (mj p : Option String) (rj : String),
      rj ≠ "" → jsonValid rj = false →
      renameMultiDecision jsonValid fid mj p (some rj) =
        RenameMultiOutcome.localError "Error: renames_json is not valid JSON") ∧
    (∀ (jsonValid : String → Bool) (fid : String) (p : Option String) (mj : String),
      mj ≠ "" → jsonValid mj = false →
      renameMultiDecision jsonValid fid (some mj) p none =
        RenameMultiOutcome.localError "Error: mapping_json is not valid JSON") ∧
    (∀ (jsonValid : String → Bool) (fid : String) (rj : String),
      rj ≠ "" → jsonValid rj = true →
      renameMultiDecision jsonValid fid none none (some rj) =
        RenameMultiOutcome.forward
          ((if renameMultiClassify fid = ParamKind.address then [("address", jsTrim fid)]
            else [("functionName", jsTrim fid)]) ++ [("renames", rj)])) ∧
    (∀ (jsonValid : String → Bool) (fid : String) (mj : String),
      mj ≠ "" → jsonValid mj = true →
      renameMultiDecision jsonValid fid (some mj) none none =
        RenameMultiOutcome.forward
          ((if renameMultiClassify fid = ParamKind.address then [("address", jsTrim fid)]
            else [("functionName", jsTrim fid)]) ++ [("mapping", mj)])) ∧
    (∀ (jsonValid : String → Bool) (fid : String) (p : String),
      p ≠ "" →
      renameMultiDecision jsonValid fid none (some p) none =
        RenameMultiOutcome.forward
          ((if renameMultiClassify fid = ParamKind.address then [("address", jsTrim fid)]
            else [("functionName", jsTrim fid)]) ++ [("pairs", p)])) ∧
    (∀ (r t : Int),
      renameMultiRender (JVal.jobj [("renamed", JVal.jnum r), ("total", JVal.jnum t)]) =
        "Batch rename: " ++ toString r ++ "/" ++ toString t ++ " applied") := by
  refine ⟨fun jv fid => rfl, ?_, ?_, ?_, ?_, ?_, fun r t => rfl⟩
  · intro jv fid mj p rj hrj hinvalid
    simp [renameMultiDecision, jsTruthyS, bne_iff_ne, hrj, hinvalid]
  · intro jv fid p mj hmj hinvalid
    simp [renameMultiDecision, jsTruthyS, bne_iff_ne, hmj, hinvalid]
  · intro jv fid rj hrj hvalid
    by_cases hcond :
        (jsStartsWith (jsToLowerCase (jsTrim fid)) "0x" || jsAllDigits (jsTrim fid)) = true
    · simp [renameMultiDecision, renameMultiClassify, jsTruthyS, bne_iff_ne, hrj, hvalid, hcond]
    · simp [renameMultiDecision, renameMultiClassify, jsTruthyS, bne_iff_ne, hrj, hvalid, hcond]
  · intro jv fid mj hmj hvalid
    by_cases hcond :
        (jsStartsWith (jsToLowerCase (jsTrim fid)) "0x" || jsAllDigits (jsTrim fid)) = true
    · simp [renameMultiDecision, renameMultiClassify, jsTruthyS, bne_iff_ne, hmj, hvalid, hcond]
    · simp [renameMultiDecision, renameMultiClassify, jsTruthyS, bne_iff_ne, hmj, hvalid, hcond]
  · intro jv fid p hp
    by_cases hcond :
        (jsStartsWith (jsToLowerCase (jsTrim fid)) "0x" || jsAllDigits (jsTrim fid)) = true
    · simp [renameMultiDecision, renameMultiClassify, jsTruthyS, bne_iff_ne, hp, hcond]
    · simp [renameMultiDecision, renameMultiClassify, jsTruthyS, bne_iff_ne, hp, hcond]

/-- C4 witness: an invalid `renames_json` is rejected locally at a
concrete input with no forwarded request. -/
theorem c4_rename_multi_validation_witness :
    ("notjson" : String) ≠ "" ∧ ((fun _ : String => false) "notjson") = false ∧
    renameMultiDecision (fun _ => false) "f" none none (some "notjson") =
      RenameMultiOutcome.localError "Error: renames_json is not valid JSON" :=
  ⟨by decide, rfl,
    c4_rename_multi_validation.2.1 (fun _ => false) "f" none none "notjson" (by decide) rfl⟩

/-! ## Claim C6 -/

/-- C6: when the underlying GET throws (unreachable host, timeout or any
transport error), every transport-client entry point returns a value
rather than raising: `getText` returns an error string, `getJson` a value
carrying an `error` field, and `getLines` a single-element sequence
containing the error string (single-element whenever the error text holds
no newline, which all generated messages satisfy). -/
theorem c6_client_never_throws (endpoint : String) (err : AxiosErr)
    (h : '\n' ∉ (handleError err "GET" endpoint).data) :
    getText endpoint (AxiosOutcome.thrown err) =
      "Error: GET " ++ endpoint ++ " failed: " ++ getErrorMessage err ∧
    getJson (AxiosOutcome.thrown err) =
      JVal.jobj [("error", JVal.jstr ("Request failed: " ++ getErrorMessage err))] ∧
    (getJson (AxiosOutcome.thrown err)).hasField "error" = true ∧
    getLines endpoint (AxiosOutcome.thrown err) = [getText endpoint (AxiosOutcome.thrown err)] := by
  refine ⟨rfl, rfl, rfl, ?_⟩
  exact jsSplitNewline_no_newline _ h

/-- C6 witness: the theorem applied to the no-response transport error on
the `status` endpoint. -/
theorem c6_client_never_throws_witness :
    '\n' ∉ (handleError AxiosErr.withRequest "GET" "status").data ∧
    getLines "status" (AxiosOutcome.thrown AxiosErr.withRequest) =
      [getText "status" (AxiosOutcome.thrown AxiosErr.withRequest)] :=
  ⟨by decide, (c6_client_never_throws "status" AxiosErr.withRequest (by decide)).2.2.2⟩

/-! ## Claim C7 -/

/-- C7: `getJson` passes a body carrying an `error` field through
unchanged regardless of the HTTP status; a non-2xx response without an
`error` field becomes a synthesized object whose `error` string embeds
the status; a thrown transport error yields an object whose `error`
string starts with `Request failed: `. -/
theorem c7_getjson_error_passthrough :
    (∀ (status : Nat) (statusText : String) (fs : List (String × JVal)),
      (JVal.jobj fs).hasField "error" = true →
      getJson (AxiosOutcome.response status statusText (JVal.jobj fs)) = JVal.jobj fs) ∧
    (∀ (status : Nat) (statusText : String) (data : JVal),
      ¬ (200 ≤ status ∧ status < 300) →
      (jsTruthy data && jsTypeofObject data && data.hasField "error") = false →
      getJson (AxiosOutcome.response status statusText data) =
        JVal.jobj [("error", JVal.jstr ("Error " ++ toString status ++ ": " ++ statusText))]) ∧
    (∀ err : AxiosErr,
      getJson (AxiosOutcome.thrown err) =
        JVal.jobj [("error", JVal.jstr ("Request failed: " ++ getErrorMessage err))]) := by
  refine ⟨?_, ?_, fun err => rfl⟩
  · intro status statusText fs herr
    by_cases hst : 200 ≤ status ∧ status < 300
    · simp [getJson, hst]
    · simp only [JVal.hasField] at herr
      simp [getJson, hst, jsTruthy, jsTypeofObject, JVal.hasField, herr]
  · intro status statusText data hst hcond
    simp [getJson, hst, hcond]

/-- C7 witness: a 404 response whose body already carries an `error`
field is returned unchanged. -/
theorem c7_getjson_error_passthrough_witness :
    (JVal.jobj [("error", JVal.jstr "nope")]).hasField "error" = true ∧
    getJson (AxiosOutcome.response 404 "Not Found" (JVal.jobj [("error", JVal.jstr "nope")])) =
      JVal.jobj [("error", JVal.jstr "nope")] :=
  ⟨rfl, c7_getjson_error_passthrough.1 404 "Not Found" [("error", JVal.jstr "nope")] rfl⟩

/-! ## Claim C5 -/

theorem listAllStringsGo_cont (b : Nat) (server : Nat → JVal) (offset fuel : Nat)
    (p : List JVal) (hs : server offset = JVal.jobj [("strings", JVal.jarr p)])
    (hne : p ≠ []) (hlen : ¬ p.length < b) :
    listAllStringsGo b server offset (fuel + 1) =
      ((p.map formatStringItem) ++ (listAllStringsGo b server (offset + b) fuel).1,
        (listAllStringsGo b server (offset + b) fuel).2 + 1) := by
  simp [listAllStringsGo, hs, jsTruthy, JVal.hasField, JVal.getField, jsAsArray,
    List.isEmpty_iff, hne, hlen]

theorem listAllStringsGo_stop (b : Nat) (server : Nat → JVal) (offset fuel : Nat)
    (p : List JVal) (hs : server offset = JVal.jobj [("strings", JVal.jarr p)])
    (hlen : p.length < b) :
    listAllStringsGo b server offset (fuel + 1) = (p.map formatStringItem, 1) := by
  by_cases hne : p = []
  · subst hne
    simp [listAllStringsGo, hs, jsTruthy, JVal.hasField, JVal.getField, jsAsArray]
  · simp [listAllStringsGo, hs, jsTruthy, JVal.hasField, JVal.getField, jsAsArray,
      List.isEmpty_iff, hne, hlen]

/-- C5: pagination behavior of the `list_all_strings` aggregation loop.
With batch size `n` and remote pages of sizes `n, n, n, k` (`k < n`) at
offsets `0, n, 2n, 3n`, exactly 4 fetches are performed and the `3n + k`
records are returned in arrival order; a first page of size 0 gives
exactly 1 fetch and an empty result; a response with no recognizable
`strings` array also ends the loop after that single fetch. -/
theorem c5_list_all_strings_pagination :
    (∀ (n k fuel : Nat) (p1 p2 p3 p4 : List JVal) (server : Nat → JVal),
      k < n → p1.length = n → p2.length = n → p3.length = n → p4.length = k →
      server 0 = JVal.jobj [("strings", JVal.jarr p1)] →
      server n = JVal.jobj [("strings", JVal.jarr p2)] →
      server (n + n) = JVal.jobj [("strings", JVal.jarr p3)] →
      server (n + n + n) = JVal.jobj [("strings", JVal.jarr p4)] →
      listAllStringsGo n server 0 (fuel + 4) =
        ((p1 ++ p2 ++ p3 ++ p4).map formatStringItem, 4)) ∧
    (∀ (n fuel : Nat) (server : Nat → JVal),
      server 0 = JVal.jobj [("strings", JVal.jarr [])] →
      listAllStringsGo n server 0 (fuel + 1) = ([], 1)) ∧
    (∀ (n fuel : Nat) (server : Nat → JVal) (data : JVal),
      server 0 = data → jsTruthy data = true → data.hasField "strings" = false →
      listAllStringsGo n server 0 (fuel + 1) = ([], 1)) := by
  refine ⟨?_, ?_, ?_⟩
  · intro n k fuel p1 p2 p3 p4 server hk h1 h2 h3 h4 hs0 hs1 hs2 hs3
    have hn : 0 < n := Nat.lt_of_le_of_lt (Nat.zero_le k) hk
    have hne1 : p1 ≠ [] := by
      intro hcontra; rw [hcontra] at h1; simp at h1; omega
    have hne2 : p2 ≠ [] := by
      intro hcontra; rw [hcontra] at h2; simp at h2; omega
    have hne3 : p3 ≠ [] := by
      intro hcontra; rw [hcontra] at h3; simp at h3; omega
    have hfull1 : ¬ p1.length < n := by omega
    have hfull2 : ¬ p2.length < n := by omega
    have hfull3 : ¬ p3.length < n := by omega
    have hlast : p4.length < n := by omega
    have step1 := listAllStringsGo_cont n server 0 (fuel + 3) p1 hs0 hne1 hfull1
    have e1 : fuel + 3 + 1 = fuel + 4 := by omega
    rw [e1] at step1
    have hs1' : server (0 + n) = JVal.jobj [("strings", JVal.jarr p2)] := by
      rw [Nat.zero_add]; exact hs1
    have step2 := listAllStringsGo_cont n server (0 + n) (fuel + 2) p2 hs1' hne2 hfull2
    have e2 : fuel + 2 + 1 = fuel + 3 := by omega
    rw [e2] at step2
    have hs2' : server (0 + n + n) = JVal.jobj [("strings", JVal.jarr p3)] := by
      rw [Nat.zero_add]; exact hs2
    have step3 := listAllStringsGo_cont n server (0 + n + n) (fuel + 1) p3 hs2' hne3 hfull3
    have e3 : fuel + 1 + 1 = fuel + 2 := by omega
    rw [e3] at step3
    have hs3' : server (0 + n + n + n) = JVal.jobj [("strings", JVal.jarr p4)] := by
      rw [Nat.zero_add]; exact hs3
    have step4 := listAllStringsGo_stop n server (0 + n + n + n) fuel p4 hs3' hlast
    rw [step1, step2, step3, step4]
    simp [List.map_append, List.append_assoc]
  · intro n fuel server hs0
    simp [listAllStringsGo, hs0, jsTruthy, JVal.hasField, JVal.getField, jsAsArray]
  · intro n fuel server data hs0 htruthy hnofield
    simp [listAllStringsGo, hs0, htruthy, hnofield]

/-- One string record used by the C5 witness. -/
def c5Item (i : Nat) : JVal :=
  JVal.jobj [("address", JVal.jstr ("0x" ++ toString i)), ("length", JVal.jnum 1),
    ("type", JVal.jstr "a"), ("value", JVal.jstr "v")]

/-- Concrete remote pages used by the C5 witness: three full pages of one
item and a final empty page. -/
def c5Server : Nat → JVal := fun offset =>
  if offset = 0 then JVal.jobj [("strings", JVal.jarr [c5Item 0])]
  else if offset = 1 then JVal.jobj [("strings", JVal.jarr [c5Item 1])]
  else if offset = 2 then JVal.jobj [("strings", JVal.jarr [c5Item 2])]
  else if offset = 3 then JVal.jobj [("strings", JVal.jarr [])]
  else JVal.jnull

/-- C5 witness: the pagination theorem applied to concrete pages of sizes
1, 1, 1, 0 with batch size 1. -/
theorem c5_list_all_strings_pagination_witness :
    (0 : Nat) < 1 ∧
    listAllStringsGo 1 c5Server 0 (0 + 4) =
      (([c5Item 0] ++ [c5Item 1] ++ [c5Item 2] ++ []).map formatStringItem, 4) :=
  ⟨by decide,
    c5_list_all_strings_pagination.1 1 0 0 [c5Item 0] [c5Item 1] [c5Item 2] [] c5Server
      (by decide) rfl rfl rfl rfl rfl rfl rfl rfl⟩

/-! ## Claim C8 -/

/-- C8 counterexample: on an error-bearing response,
`get_stack_frame_vars` renders the empty string and `list_binaries`
renders the bare message — neither produces the `Error: `-prefixed line
the claim requires of every handler. -/
theorem c8_counterexample :
    getStackFrameVarsRender (JVal.jobj [("error", JVal.jstr "boom")]) = "" ∧
    getStackFrameVarsRender (JVal.jobj [("error", JVal.jstr "boom")]) ≠ "Error: boom" ∧
    listBinariesRender (JVal.jobj [("error", JVal.jstr "boom")]) = "boom" ∧
    listBinariesRender (JVal.jobj [("error", JVal.jstr "boom")]) ≠ "Error: boom" := by
  exact ⟨rfl, by decide, rfl, by decide⟩

/-- C8 (amended): handlers such as `rename_multi_variables` and
`patch_bytes` do render an error-bearing response as `Error: <message>`,
but `get_stack_frame_vars` renders an empty text payload and
`list_binaries` renders the bare message without the prefix. -/
theorem c8_error_rendering (fs : List (String × JVal)) (msg : String)
    (h : fs.lookup "error" = some (JVal.jstr msg)) :
    getStackFrameVarsRender (JVal.jobj fs) = "" ∧
    listBinariesRender (JVal.jobj fs) = msg ∧
    renameMultiRender (JVal.jobj fs) = "Error: " ++ msg ∧
    (∀ address, patchBytesRender address (JVal.jobj fs) = "Error: " ++ msg) := by
  refine ⟨?_, ?_, ?_, fun address => ?_⟩ <;>
    simp [getStackFrameVarsRender, listBinariesRender, renameMultiRender, patchBytesRender,
      jsTruthy, JVal.hasField, JVal.getField, h, jsToStringOpt, jsToString]

/-- C8 witness: the amended rendering theorem at a concrete error
response. -/
theorem c8_error_rendering_witness :
    ([("error", JVal.jstr "boom2")] : List (String × JVal)).lookup "error" =
      some (JVal.jstr "boom2") ∧
    getStackFrameVarsRender (JVal.jobj [("error", JVal.jstr "boom2")]) = "" ∧
    listBinariesRender (JVal.jobj [("error", JVal.jstr "boom2")]) = "boom2" :=
  ⟨rfl, (c8_error_rendering [("error", JVal.jstr "boom2")] "boom2" rfl).1,
    (c8_error_rendering [("error", JVal.jstr "boom2")] "boom2" rfl).2.1⟩

/-! ## Claim C9 -/

/-- C9: a `patch_bytes` response with `status="partial"`,
`bytes_written=2`, `bytes_requested=4` renders a payload containing the
substring `2/4 bytes` and the marker `(PARTIAL WRITE)`; with
`saved_to_file=true` the payload also carries the save path, and the
original/patched byte dumps are included when present. -/
theorem c9_patch_partial_payload (address orig patched path : String)
    (ho : orig ≠ "") (hq : patched ≠ "") :
    patchBytesRender address (JVal.jobj [("status", JVal.jstr "partial"),
        ("bytes_written", JVal.jnum 2), ("bytes_requested", JVal.jnum 4),
        ("original_bytes", JVal.jstr orig), ("patched_bytes", JVal.jstr patched),
        ("saved_to_file", JVal.jbool true), ("saved_path", JVal.jstr path)]) =
      "Patched 2/4 bytes at " ++ address ++ " (PARTIAL WRITE)" ++ "\nOriginal: " ++ orig ++
        "\nPatched:  " ++ patched ++ "\nSaved to file: " ++ path ∧
    (∃ a b : String,
      patchBytesRender address (JVal.jobj [("status", JVal.jstr "partial"),
        ("bytes_written", JVal.jnum 2), ("bytes_requested", JVal.jnum 4),
        ("original_bytes", JVal.jstr orig), ("patched_bytes", JVal.jstr patched),
        ("saved_to_file", JVal.jbool true), ("saved_path", JVal.jstr path)]) =
          a ++ "2/4 bytes" ++ b) ∧
    (∃ a b : String,
      patchBytesRender address (JVal.jobj [("status", JVal.jstr "partial"),
        ("bytes_written", JVal.jnum 2), ("bytes_requested", JVal.jnum 4),
        ("original_bytes", JVal.jstr orig), ("patched_bytes", JVal.jstr patched),
        ("saved_to_file", JVal.jbool true), ("saved_path", JVal.jstr path)]) =
          a ++ "(PARTIAL WRITE)" ++ b) ∧
    (∃ a : String,
      patchBytesRender address (JVal.jobj [("status", JVal.jstr "partial"),
        ("bytes_written", JVal.jnum 2), ("bytes_requested", JVal.jnum 4),
        ("original_bytes", JVal.jstr orig), ("patched_bytes", JVal.jstr patched),
        ("saved_to_file", JVal.jbool true), ("saved_path", JVal.jstr path)]) =
          a ++ "\nSaved to file: " ++ path) := by
  have ho' : (orig != "") = true := by simpa [bne_iff_ne] using ho
  have hq' : (patched != "") = true := by simpa [bne_iff_ne] using hq
  have hmain : patchBytesRender address (JVal.jobj [("status", JVal.jstr "partial"),
      ("bytes_written", JVal.jnum 2), ("bytes_requested", JVal.jnum 4),
      ("original_bytes", JVal.jstr orig), ("patched_bytes", JVal.jstr patched),
      ("saved_to_file", JVal.jbool true), ("saved_path", JVal.jstr path)]) =
      "Patched 2/4 bytes at " ++ address ++ " (PARTIAL WRITE)" ++ "\nOriginal: " ++ orig ++
        "\nPatched:  " ++ patched ++ "\nSaved to file: " ++ path := by
    have hpath : (if path = "" then "" else path) = path := by
      by_cases hp : path = "" <;> simp [hp]
    simp +decide [patchBytesRender, JVal.hasField, JVal.getField, List.lookup, jsEqStr,
      jsStrOr, jsNumOr, jsBoolOr, jsTruthy, jsToString, jsToStringOpt, ho', hq', hpath]
    rfl
  refine ⟨hmain, ?_, ?_, ?_⟩
  · refine ⟨"Patched ", " at " ++ address ++ " (PARTIAL WRITE)" ++ "\nOriginal: " ++ orig ++
      "\nPatched:  " ++ patched ++ "\nSaved to file: " ++ path, ?_⟩
    rw [hmain]
    rw [show ("Patched 2/4 bytes at " : String) = "Patched " ++ "2/4 bytes" ++ " at " from rfl]
    simp only [String.append_assoc]
  · refine ⟨"Patched 2/4 bytes at " ++ address ++ " ", "\nOriginal: " ++ orig ++
      "\nPatched:  " ++ patched ++ "\nSaved to file: " ++ path, ?_⟩
    rw [hmain]
    rw [show (" (PARTIAL WRITE)" : String) = " " ++ "(PARTIAL WRITE)" from rfl]
    simp only [String.append_assoc]
  · refine ⟨"Patched 2/4 bytes at " ++ address ++ " (PARTIAL WRITE)" ++ "\nOriginal: " ++ orig ++
      "\nPatched:  " ++ patched, ?_⟩
    rw [hmain]

/-- C9 witness: the partial-write payload theorem at a concrete response. -/
theorem c9_patch_partial_payload_witness :
    ("90" : String) ≠ "" ∧ ("91" : String) ≠ "" ∧
    patchBytesRender "0x401000" (JVal.jobj [("status", JVal.jstr "partial"),
        ("bytes_written", JVal.jnum 2), ("bytes_requested", JVal.jnum 4),
        ("original_bytes", JVal.jstr "90"), ("patched_bytes", JVal.jstr "91"),
        ("saved_to_file", JVal.jbool true), ("saved_path", JVal.jstr "a.bin")]) =
      "Patched 2/4 bytes at " ++ "0x401000" ++ " (PARTIAL WRITE)" ++ "\nOriginal: " ++ "90" ++
        "\nPatched:  " ++ "91" ++ "\nSaved to file: " ++ "a.bin" :=
  ⟨by decide, by decide,
    (c9_patch_partial_payload "0x401000" "90" "91" "a.bin" (by decide) (by decide)).1⟩

/-! ## Claim C10 -/

/-- C10: `get_comment` and `get_function_comment` return only the portion
of the remote response text before its first newline — everything after
the first line is dropped — and an empty response yields an empty text
payload. -/
theorem c10_comment_first_line :
    (∀ (pre post : String), '\n' ∉ pre.data →
      getCommentRender (pre ++ "\n" ++ post) = pre ∧
      getFunctionCommentRender (pre ++ "\n" ++ post) = pre) ∧
    getCommentRender "" = "" ∧ getFunctionCommentRender "" = "" := by
  refine ⟨?_, rfl, rfl⟩
  intro pre post h
  have hsplit := jsSplitNewline_append pre post h
  constructor
  · unfold getCommentRender
    rw [hsplit]
    rfl
  · unfold getFunctionCommentRender
    rw [hsplit]
    by_cases hpre : pre = ""
    · subst hpre; rfl
    · simp [jsStrOrS, bne_iff_ne, hpre]

/-- C10 witness: a two-line comment is truncated to its first line. -/
theorem c10_comment_first_line_witness :
    '\n' ∉ ("line1" : String).data ∧
    getCommentRender ("line1" ++ "\n" ++ "line2") = "line1" :=
  ⟨by decide, (c10_comment_first_line.1 "line1" "line2" (by decide)).1⟩

end BinjaMcp
